/-
  Verification of the Scout recruitment-agent repository
  (handlers.py, prompt_templates.py, main.py,
   agents/recruitement_agent/Inclusive_Job_Descriptor.py,
   agents/recruitement_agent/boolean_string_recommendation.py).

  The Python code is shallowly embedded: strings are Lean `String`s
  manipulated through their character lists, dicts are insertion-ordered
  association lists (matching CPython dict semantics), JSON values are an
  inductive type, and the external text-generation call is an explicit
  argument (the reply, or an exception).  All definitions are executable.
-/
import Mathlib

namespace Scout

/-! ## Basic Python string primitives, modelled on character lists.

  These model the CPython behaviour of the corresponding `str` methods for
  the ASCII texts this program manipulates. -/

/-- Characters removed by Python `str.strip()` (ASCII whitespace). -/
def isPyWs (c : Char) : Bool :=
  c == ' ' || c == '\t' || c == '\n' || c == '\r' || c == '\x0b' || c == '\x0c'

/-- Python `str.strip()`. -/
def pyStrip (s : String) : String :=
  ⟨((s.data.dropWhile isPyWs).reverse.dropWhile isPyWs).reverse⟩

/-- Python `str.lstrip()`. -/
def pyLStrip (s : String) : String :=
  ⟨s.data.dropWhile isPyWs⟩

/-- Python `str.lower()` (ASCII case mapping). -/
def strLower (s : String) : String :=
  ⟨s.data.map Char.toLower⟩

/-- Python `sep in s` for a single character. -/
def strContainsChar (s : String) (c : Char) : Bool :=
  s.data.contains c

/-- Python `s.startswith(p)`. -/
def strStartsWithB (s p : String) : Bool :=
  p.data.isPrefixOf s.data

/-- Python `s[n:]`. -/
def strDrop (s : String) (n : Nat) : String :=
  ⟨s.data.drop n⟩

/-- Auxiliary worker for `pySplit`; `fuel` bounds the recursion. -/
def pySplitAux (sep : List Char) : Nat → List Char → List Char → List (List Char)
  | 0, s, acc => [acc.reverse ++ s]
  | _ + 1, [], acc => [acc.reverse]
  | fuel + 1, c :: rest, acc =>
    if sep.isPrefixOf (c :: rest) then
      acc.reverse :: pySplitAux sep fuel (List.drop sep.length (c :: rest)) []
    else
      pySplitAux sep fuel rest (c :: acc)

/-- Python `s.split(sep)` for a non-empty separator. -/
def pySplit (s sep : String) : List String :=
  (pySplitAux sep.data (s.data.length + 1) s.data []).map (fun l => ⟨l⟩)

/-- Python `sep.join(l)`. -/
def strJoin (sep : String) : List String → String
  | [] => ""
  | [x] => x
  | x :: xs => x ++ sep ++ strJoin sep xs

/-- Python `s.split(sep, 1)`, returned as the pair
    (before first separator, after first separator). -/
def pySplit1 (s sep : String) : String × String :=
  match pySplit s sep with
  | [] => (s, "")
  | h :: t => (h, strJoin sep t)

/-- Python `s.replace(old, "")` (used only to delete every occurrence). -/
def strDeleteAll (s old : String) : String :=
  strJoin "" (pySplit s old)

/-- Is `p` a contiguous sublist of `s`? -/
def listHasSub (p : List Char) : List Char → Bool
  | [] => p.isPrefixOf []
  | c :: rest => p.isPrefixOf (c :: rest) || listHasSub p rest

/-- Boolean substring test (`needle in haystack` in Python). -/
def hasSubstr (haystack needle : String) : Bool :=
  listHasSub needle.data haystack.data

/-! ## Insertion-ordered dictionaries (CPython `dict` semantics):
  assignment to an existing key updates the value in place, keeping the
  key's original position; assignment to a new key appends. -/

/-- `d[k] = v` on a CPython dict. -/
def dictInsert (d : List (String × String)) (k v : String) : List (String × String) :=
  match d with
  | [] => [(k, v)]
  | (k', v') :: rest => if k' == k then (k, v) :: rest else (k', v') :: dictInsert rest k v

/-- `d.get(k, dflt)` on a CPython dict. -/
def dictGetD (d : List (String × String)) (k dflt : String) : String :=
  match d with
  | [] => dflt
  | (k', v) :: rest => if k' == k then v else dictGetD rest k dflt

/-- `d[k]` lookup returning an `Option`, over any value type. -/
def lookupFn {α : Type} (l : List (String × α)) (k : String) : Option α :=
  match l with
  | [] => none
  | (k', v) :: rest => if k' == k then some v else lookupFn rest k

/-! ## Parameter extractor (`ScoutAgent.parse_params_from_message`,
  handlers.py lines 106-124). -/

/-- Embedding of `parse_params_from_message`: looks for the first colon,
    splits the remainder by commas, splits each piece at the first equals
    sign, strips whitespace from keys and values; pieces without an equals
    sign are skipped; no colon gives an empty dict. -/
def parse_params_from_message (message : String) : List (String × String) :=
  if strContainsChar message ':' then
    let tail := (pySplit1 message ":").2
    let parts := pySplit tail ","
    parts.foldl
      (fun params part =>
        if strContainsChar part '=' then
          let kv := pySplit1 part "="
          dictInsert params (pyStrip kv.1) (pyStrip kv.2)
        else params)
      []
  else []

/-- Spec-side restatement of the parameter extractor, written from the
    spec's words (section 4.2): empty map when no colon; otherwise take the
    text after the first colon, split on commas into segments, keep only
    segments containing '=', split each at the first '=' trimming both
    sides, then build a map where the last occurrence of a key wins while
    first-occurrence key order is preserved. -/
def extractSpec (message : String) : List (String × String) :=
  if !(strContainsChar message ':') then []
  else
    let tail := (pySplit1 message ":").2
    let segs := pySplit tail ","
    let pairs := segs.filterMap
      (fun seg =>
        if strContainsChar seg '=' then
          some (pyStrip (pySplit1 seg "=").1, pyStrip (pySplit1 seg "=").2)
        else none)
    pairs.foldl (fun m kv => dictInsert m kv.1 kv.2) []


/-! ## Intent classifier (`ScoutAgent.get_intent`, handlers.py lines 63-87).

  Each pattern in the source is an alternation of literal phrases; a `\b`
  word boundary may be required before the first character and after the
  last character of an alternative (alternation binds loosest, so e.g. in
  `\boutreach|message\b` only "outreach" carries a left boundary and only
  "message" a right one).  `re.search` succeeds when some alternative
  occurs at some position with its boundary requirements satisfied.
  Python's `\w` is modelled for ASCII text. -/

/-- Python regex `\w`. -/
def isWordChar (c : Char) : Bool :=
  c.isAlphanum || c == '_'

/-- A `\b` requirement (`b = true`) holds against the adjacent character
    `c` (`none` at the ends of the string). -/
def boundaryOk (b : Bool) (c : Option Char) : Bool :=
  !b || (match c with
         | none => true
         | some c => !isWordChar c)

/-- If `lit` occurs at the head of `s`, returns the character following
    the occurrence (`none` at end of string). -/
def litAt : List Char → List Char → Option (Option Char)
  | [], s => some s.head?
  | _ :: _, [] => none
  | c :: lr, d :: sr => if c == d then litAt lr sr else none

/-- Does `lit` (with boundary flags `lb`, `rb`) match at some position of
    the remaining input, given the character `prev` just before it? -/
def searchFrom (lb rb : Bool) (lit : List Char) : Option Char → List Char → Bool
  | prev, [] =>
    boundaryOk lb prev &&
      (match litAt lit [] with
       | some nxt => boundaryOk rb nxt
       | none => false)
  | prev, c :: rest =>
    (boundaryOk lb prev &&
      (match litAt lit (c :: rest) with
       | some nxt => boundaryOk rb nxt
       | none => false))
    || searchFrom lb rb lit (some c) rest

/-- One alternative of a pattern: optional left/right `\b` and a literal. -/
structure Alt where
  lb : Bool
  rb : Bool
  lit : String
deriving DecidableEq

/-- `re.search(pattern, s)` as a Boolean, for a pattern that is an
    alternation of boundary-annotated literals. -/
def reSearch (alts : List Alt) (s : String) : Bool :=
  alts.any (fun a => searchFrom a.lb a.rb a.lit.data none s.data)

/-- `\b(boolean|search|role refinement)\b` -/
def patRoleRefinement : List Alt :=
  [⟨true, true, "boolean"⟩, ⟨true, true, "search"⟩, ⟨true, true, "role refinement"⟩]

/-- `\b(job description|draft jd|write jd|inclusive jd)\b` -/
def patInclusiveJd : List Alt :=
  [⟨true, true, "job description"⟩, ⟨true, true, "draft jd"⟩,
   ⟨true, true, "write jd"⟩, ⟨true, true, "inclusive jd"⟩]

/-- `\boutreach|message\b` -/
def patOutreach : List Alt :=
  [⟨true, false, "outreach"⟩, ⟨false, true, "message"⟩]

/-- `\bsourcing|market map|channels\b` -/
def patSourcing : List Alt :=
  [⟨true, false, "sourcing"⟩, ⟨false, false, "market map"⟩, ⟨false, true, "channels"⟩]

/-- `\binterview guide|scorecard\b` -/
def patInterviewGuide : List Alt :=
  [⟨true, false, "interview guide"⟩, ⟨false, true, "scorecard"⟩]

/-- `\btask triage|daily digest\b` -/
def patTaskTriage : List Alt :=
  [⟨true, false, "task triage"⟩, ⟨false, true, "daily digest"⟩]

/-- `\boffer|onboarding\b` -/
def patOffer : List Alt :=
  [⟨true, false, "offer"⟩, ⟨false, true, "onboarding"⟩]

/-- `\bsummary|summarise candidate|candidate profile\b` -/
def patSummary : List Alt :=
  [⟨true, false, "summary"⟩, ⟨false, false, "summarise candidate"⟩,
   ⟨false, true, "candidate profile"⟩]

/-- `\bsalary benchmark|market insight|labor market\b` -/
def patMarketInsights : List Alt :=
  [⟨true, false, "salary benchmark"⟩, ⟨false, false, "market insight"⟩,
   ⟨false, true, "labor market"⟩]

/-- The ordered keyword-to-handler rule list of `get_intent`. -/
def intentRules : List (List Alt × String) :=
  [(patRoleRefinement, "role_refinement"),
   (patInclusiveJd, "inclusive_jd"),
   (patOutreach, "outreach_message"),
   (patSourcing, "sourcing_plan"),
   (patInterviewGuide, "interview_guide"),
   (patTaskTriage, "task_triage"),
   (patOffer, "offer_handover"),
   (patSummary, "candidate_summary"),
   (patMarketInsights, "market_insights")]

/-- Embedding of `ScoutAgent.get_intent`: lowercase the message, then
    return the tag of the first rule whose pattern matches anywhere, or
    `none` (Python `None`). -/
def get_intent (message : String) : Option String :=
  let msgLower := strLower message
  intentRules.findSome? (fun pt => if reSearch pt.1 msgLower then some pt.2 else none)

/-! ## Prompt templates (prompt_templates.py) and `str.format`.

  `pyFormat` models Python `str.format` for templates that contain only
  plain `{name}` fields (as all nine templates here do): the template is
  cut into literal and field segments and each field is replaced by the
  corresponding keyword argument, without re-scanning substituted text. -/

def lbrace : Char := Char.ofNat 123

def rbrace : Char := Char.ofNat 125

/-- A template segment: a literal run, or a `{name}` replacement field. -/
inductive Tpl where
  | lit (s : String)
  | fld (name : String)
deriving DecidableEq

/-- Replace every field by its value from `args` and concatenate. -/
def render (segs : List Tpl) (args : List (String × String)) : String :=
  match segs with
  | [] => ""
  | .lit s :: rest => s ++ render rest args
  | .fld f :: rest => (lookupFn args f).getD "" ++ render rest args

/-- Cut a character list into literal and field segments; `fuel` bounds
    the recursion. -/
def segsOfAux : Nat → List Char → List Tpl
  | 0, _ => []
  | _ + 1, [] => []
  | fuel + 1, s =>
    let l := s.takeWhile (fun c => !(c == lbrace))
    let r := s.dropWhile (fun c => !(c == lbrace))
    match r with
    | [] => if l.isEmpty then [] else [Tpl.lit ⟨l⟩]
    | _ :: r1 =>
      let n := r1.takeWhile (fun c => !(c == rbrace))
      let r2 := r1.dropWhile (fun c => !(c == rbrace))
      let rest := match r2 with
                  | [] => []
                  | _ :: r3 => r3
      (if l.isEmpty then [] else [Tpl.lit ⟨l⟩]) ++ Tpl.fld ⟨n⟩ :: segsOfAux fuel rest

/-- Python `template.format(**args)` for plain-field templates. -/
def pyFormat (template : String) (args : List (String × String)) : String :=
  render (segsOfAux (template.data.length + 1) template.data) args

/-- Verbatim text of `ROLE_REFINEMENT_TEMPLATE` (prompt_templates.py). -/
def ROLE_REFINEMENT_TEMPLATE : String :=
  "You are a recruitment assistant. Your job is to refine the role definition and produce inclusive Boolean search strings to find candidates.\nRole title: {role_title}\nLocation: {location}\nSeniority: {seniority}\nMust\u2011have skills: {must_have}\nNice\u2011to\u2011have skills: {nice_to_have}\n\nSuggest alternate titles and generate a Boolean search string covering the role and key skills."

/-- Verbatim text of `INCLUSIVE_JD_TEMPLATE` (prompt_templates.py). -/
def INCLUSIVE_JD_TEMPLATE : String :=
  "You are drafting a bias\u2011free, inclusive job ad.  Use clear, neutral language and avoid gender coded terms.  Reflect the company's brand tone when provided.\nRole: {role_title}\nLocation: {location}\nSeniority: {seniority}\nResponsibilities: {responsibilities}\nRequirements: {requirements}\nBenefits: {benefits}\nBrand tone: {brand_tone}\n\nProduce a job advertisement with sections for Summary, Responsibilities, Requirements, Benefits and an Inclusion Statement."

/-- Verbatim text of `OUTREACH_MESSAGE_TEMPLATE` (prompt_templates.py). -/
def OUTREACH_MESSAGE_TEMPLATE : String :=
  "You are writing a recruitment outreach message.  Keep it short, specific and respectful.  If a candidate name is provided, use it.\nCandidate name: {candidate_name}\nRole: {role_title}\nTop skills: {top_skills}\nValue proposition: {value_proposition}\nJob description link: {jd_link}\nTone: {tone}\n\nGenerate two outreach message variants with subject lines and calls to action.  Include an opt\u2011out sentence if emailing."

/-- Verbatim text of `SOURCING_PLAN_TEMPLATE` (prompt_templates.py). -/
def SOURCING_PLAN_TEMPLATE : String :=
  "You are creating a sourcing plan and market map outline.\nRole: {role_title}\nLocation: {location}\nIndustry/domain: {industry}\nMust\u2011have skills: {must_have}\n\nSuggest relevant channels (e.g., LinkedIn, communities, meetups), synonyms for titles, and key employers.  Provide the output as a bullet list or simple table ready for a spreadsheet."

/-- Verbatim text of `INTERVIEW_GUIDE_TEMPLATE` (prompt_templates.py). -/
def INTERVIEW_GUIDE_TEMPLATE : String :=
  "You are generating an interview guide and scorecard.\nRole: {role_title}\nSeniority: {seniority}\nCompetencies to assess: {competencies}\nInterview stages: {stages}\n\nSuggest a balanced mix of technical and behavioural questions mapped to the competencies.  Provide a rubric for scoring (1\u20135) with space for evidence.  Ensure fairness and accessibility."

/-- Verbatim text of `TASK_TRIAGE_TEMPLATE` (prompt_templates.py). -/
def TASK_TRIAGE_TEMPLATE : String :=
  "You are summarising the recruiting tasks and next actions for the day.\nOpen roles: {open_roles}\nCandidate stages: {candidate_stages}\nPending feedback: {pending_feedback}\nUpcoming interviews: {upcoming_interviews}\n\nProvide a prioritised task list and quick reminders.  Ask the user before scheduling or sending messages."

/-- Verbatim text of `OFFER_HANDOVER_TEMPLATE` (prompt_templates.py). -/
def OFFER_HANDOVER_TEMPLATE : String :=
  "You are preparing an offer and onboarding handover.\nRole: {role_title}\nCandidate: {candidate_name}\nStart date: {start_date}\nLocation: {location}\nOnboarding SOPs: {onboarding_sops}\n\nGenerate a checklist of tasks: offer approval, letter sending, background checks, equipment and account setup, and day\u2011one agenda.  Keep automation light and ensure human approval where required."

/-- Verbatim text of `CANDIDATE_SUMMARY_TEMPLATE` (prompt_templates.py). -/
def CANDIDATE_SUMMARY_TEMPLATE : String :=
  "You are summarising candidate profiles into bias\u2011reduced briefs.\nCandidate CV: {candidate_cv}\nRole requirements: {role_requirements}\n\nExtract key achievements, skills and role fit notes.  Remove names, age and gender.  Present the summary in a consistent format."

/-- Verbatim text of `MARKET_INSIGHTS_TEMPLATE` (prompt_templates.py). -/
def MARKET_INSIGHTS_TEMPLATE : String :=
  "You are providing labor market insights and salary benchmarks.\nRole: {role_title}\nLocation: {location}\nSeniority: {seniority}\n\nRetrieve typical salary ranges, demand signals and assumptions.  State the data source and the recency of the information."


/-- Embedding of `ScoutAgent.handle_role_refinement` (handlers.py). -/
def handle_role_refinement (params : List (String × String)) : String :=
  pyFormat ROLE_REFINEMENT_TEMPLATE
   [("role_title", dictGetD params "role_title" "[role title]"),
    ("location", dictGetD params "location" "[location]"),
    ("seniority", dictGetD params "seniority" "[seniority]"),
    ("must_have", dictGetD params "must_have" "[must\u2011have skills]"),
    ("nice_to_have", dictGetD params "nice_to_have" "[nice\u2011to\u2011have skills]")]

def handle_role_refinement_fields : List (String × String) :=
  [("role_title", "[role title]"),
   ("location", "[location]"),
   ("seniority", "[seniority]"),
   ("must_have", "[must\u2011have skills]"),
   ("nice_to_have", "[nice\u2011to\u2011have skills]")]

/-- Embedding of `ScoutAgent.handle_inclusive_jd` (handlers.py). -/
def handle_inclusive_jd (params : List (String × String)) : String :=
  pyFormat INCLUSIVE_JD_TEMPLATE
   [("role_title", dictGetD params "role_title" "[role title]"),
    ("location", dictGetD params "location" "[location]"),
    ("seniority", dictGetD params "seniority" "[seniority]"),
    ("responsibilities", dictGetD params "responsibilities" "[responsibilities]"),
    ("requirements", dictGetD params "requirements" "[requirements]"),
    ("benefits", dictGetD params "benefits" "[benefits]"),
    ("brand_tone", dictGetD params "brand_tone" "neutral")]

def handle_inclusive_jd_fields : List (String × String) :=
  [("role_title", "[role title]"),
   ("location", "[location]"),
   ("seniority", "[seniority]"),
   ("responsibilities", "[responsibilities]"),
   ("requirements", "[requirements]"),
   ("benefits", "[benefits]"),
   ("brand_tone", "neutral")]

/-- Embedding of `ScoutAgent.handle_outreach_message` (handlers.py). -/
def handle_outreach_message (params : List (String × String)) : String :=
  pyFormat OUTREACH_MESSAGE_TEMPLATE
   [("candidate_name", dictGetD params "candidate_name" "[candidate]"),
    ("role_title", dictGetD params "role_title" "[role title]"),
    ("top_skills", dictGetD params "top_skills" "[top skills]"),
    ("value_proposition", dictGetD params "value_proposition" "[value proposition]"),
    ("jd_link", dictGetD params "jd_link" "[JD link]"),
    ("tone", dictGetD params "tone" "professional")]

def handle_outreach_message_fields : List (String × String) :=
  [("candidate_name", "[candidate]"),
   ("role_title", "[role title]"),
   ("top_skills", "[top skills]"),
   ("value_proposition", "[value proposition]"),
   ("jd_link", "[JD link]"),
   ("tone", "professional")]

/-- Embedding of `ScoutAgent.handle_sourcing_plan` (handlers.py). -/
def handle_sourcing_plan (params : List (String × String)) : String :=
  pyFormat SOURCING_PLAN_TEMPLATE
   [("role_title", dictGetD params "role_title" "[role title]"),
    ("location", dictGetD params "location" "[location]"),
    ("industry", dictGetD params "industry" "[industry/domain]"),
    ("must_have", dictGetD params "must_have" "[must\u2011have skills]")]

def handle_sourcing_plan_fields : List (String × String) :=
  [("role_title", "[role title]"),
   ("location", "[location]"),
   ("industry", "[industry/domain]"),
   ("must_have", "[must\u2011have skills]")]

/-- Embedding of `ScoutAgent.handle_interview_guide` (handlers.py). -/
def handle_interview_guide (params : List (String × String)) : String :=
  pyFormat INTERVIEW_GUIDE_TEMPLATE
   [("role_title", dictGetD params "role_title" "[role title]"),
    ("seniority", dictGetD params "seniority" "[seniority]"),
    ("competencies", dictGetD params "competencies" "[competencies]"),
    ("stages", dictGetD params "stages" "phone, technical, panel")]

def handle_interview_guide_fields : List (String × String) :=
  [("role_title", "[role title]"),
   ("seniority", "[seniority]"),
   ("competencies", "[competencies]"),
   ("stages", "phone, technical, panel")]

/-- Embedding of `ScoutAgent.handle_task_triage` (handlers.py). -/
def handle_task_triage (params : List (String × String)) : String :=
  pyFormat TASK_TRIAGE_TEMPLATE
   [("open_roles", dictGetD params "open_roles" "[open roles]"),
    ("candidate_stages", dictGetD params "candidate_stages" "[candidate stages]"),
    ("pending_feedback", dictGetD params "pending_feedback" "[pending feedback]"),
    ("upcoming_interviews", dictGetD params "upcoming_interviews" "[upcoming interviews]")]

def handle_task_triage_fields : List (String × String) :=
  [("open_roles", "[open roles]"),
   ("candidate_stages", "[candidate stages]"),
   ("pending_feedback", "[pending feedback]"),
   ("upcoming_interviews", "[upcoming interviews]")]

/-- Embedding of `ScoutAgent.handle_offer_handover` (handlers.py). -/
def handle_offer_handover (params : List (String × String)) : String :=
  pyFormat OFFER_HANDOVER_TEMPLATE
   [("role_title", dictGetD params "role_title" "[role title]"),
    ("candidate_name", dictGetD params "candidate_name" "[candidate]"),
    ("start_date", dictGetD params "start_date" "[start date]"),
    ("location", dictGetD params "location" "[location]"),
    ("onboarding_sops", dictGetD params "onboarding_sops" "[onboarding SOPs]")]

def handle_offer_handover_fields : List (String × String) :=
  [("role_title", "[role title]"),
   ("candidate_name", "[candidate]"),
   ("start_date", "[start date]"),
   ("location", "[location]"),
   ("onboarding_sops", "[onboarding SOPs]")]

/-- Embedding of `ScoutAgent.handle_candidate_summary` (handlers.py). -/
def handle_candidate_summary (params : List (String × String)) : String :=
  pyFormat CANDIDATE_SUMMARY_TEMPLATE
   [("candidate_cv", dictGetD params "candidate_cv" "[candidate CV text]"),
    ("role_requirements", dictGetD params "role_requirements" "[role requirements]")]

def handle_candidate_summary_fields : List (String × String) :=
  [("candidate_cv", "[candidate CV text]"),
   ("role_requirements", "[role requirements]")]

/-- Embedding of `ScoutAgent.handle_market_insights` (handlers.py). -/
def handle_market_insights (params : List (String × String)) : String :=
  pyFormat MARKET_INSIGHTS_TEMPLATE
   [("role_title", dictGetD params "role_title" "[role title]"),
    ("location", dictGetD params "location" "[location]"),
    ("seniority", dictGetD params "seniority" "[seniority]")]

def handle_market_insights_fields : List (String × String) :=
  [("role_title", "[role title]"),
   ("location", "[location]"),
   ("seniority", "[seniority]")]


/-- The `(key, default)` argument table of each handler, keyed by intent,
    in the order the source's `params.get` lines appear. -/
def handlerFields : List (String × List (String × String)) :=
  [("role_refinement", handle_role_refinement_fields),
   ("inclusive_jd", handle_inclusive_jd_fields),
   ("outreach_message", handle_outreach_message_fields),
   ("sourcing_plan", handle_sourcing_plan_fields),
   ("interview_guide", handle_interview_guide_fields),
   ("task_triage", handle_task_triage_fields),
   ("offer_handover", handle_offer_handover_fields),
   ("candidate_summary", handle_candidate_summary_fields),
   ("market_insights", handle_market_insights_fields)]

/-- `handler.format` arguments built from a field table:
    `fields.map (fun (k, d) => (k, params.get(k, d)))`. -/
def mkArgs (fields : List (String × String)) (params : List (String × String)) :
    List (String × String) :=
  fields.map (fun kd => (kd.1, dictGetD params kd.1 kd.2))

/-- The handler template of each intent. -/
def handlerTemplate : List (String × String) :=
  [("role_refinement", ROLE_REFINEMENT_TEMPLATE),
   ("inclusive_jd", INCLUSIVE_JD_TEMPLATE),
   ("outreach_message", OUTREACH_MESSAGE_TEMPLATE),
   ("sourcing_plan", SOURCING_PLAN_TEMPLATE),
   ("interview_guide", INTERVIEW_GUIDE_TEMPLATE),
   ("task_triage", TASK_TRIAGE_TEMPLATE),
   ("offer_handover", OFFER_HANDOVER_TEMPLATE),
   ("candidate_summary", CANDIDATE_SUMMARY_TEMPLATE),
   ("market_insights", MARKET_INSIGHTS_TEMPLATE)]

/-- Embedding of `get_templates` (prompt_templates.py lines 152-168):
    mapping from intent names to their template texts. -/
def get_templates : List (String × String) :=
  handlerTemplate

/-- Embedding of the `self.handlers` mapping built in
    `ScoutAgent.__init__` (handlers.py lines 47-57). -/
def scoutHandlers : List (String × (List (String × String) → String)) :=
  [("role_refinement", handle_role_refinement),
   ("inclusive_jd", handle_inclusive_jd),
   ("outreach_message", handle_outreach_message),
   ("sourcing_plan", handle_sourcing_plan),
   ("interview_guide", handle_interview_guide),
   ("task_triage", handle_task_triage),
   ("offer_handover", handle_offer_handover),
   ("candidate_summary", handle_candidate_summary),
   ("market_insights", handle_market_insights)]

/-- Dispatch to an intent's handler (a missing key would be a Python
    `KeyError`; modelled as `""` and proven unreachable). -/
def runHandler (intent : String) (params : List (String × String)) : String :=
  match lookupFn scoutHandlers intent with
  | some h => h params
  | none => ""

/-- Embedding of `ScoutAgent.route_message` (handlers.py lines 89-104):
    classify; on no intent answer with the fixed clarification sentence;
    otherwise parse parameters and call the handler. -/
def route_message (message : String) : String :=
  match get_intent message with
  | none => "Sorry, I didn't understand your request. Could you please clarify?"
  | some intent => runHandler intent (parse_params_from_message message)


/-! ## List normalization (`stabilize`, boolean_string_recommendation.py
  lines 199-202): `sorted(set(values), key=str.lower)`.

  `set(values)` deduplicates by exact value and `sorted` is a stable sort
  by the lowercased string.  CPython's set iteration order is
  hash-randomized and unspecified: the possible orders are exactly the
  permutations of the distinct values (`isSetOrder` below), and the
  result of `stabilize` depends on the order whenever two values share a
  lowercase key.  `stabilizeStr` fixes the first-occurrence order — the
  instance used inside `stabilizeJ`, whose proven properties (schema
  validity, error statuses) do not depend on that choice — while
  order-sensitive claims are quantified over every `isSetOrder`.
  `str.lower` and string comparison are modelled for ASCII text. -/

/-- Lexicographic comparison of character lists by code point
    (Python string `<=`). -/
def charListLe : List Char → List Char → Bool
  | [], _ => true
  | _ :: _, [] => false
  | a :: as, b :: bs =>
    if a.val < b.val then true
    else if b.val < a.val then false
    else charListLe as bs

/-- Python `a <= b` on strings. -/
def strLeB (a b : String) : Bool :=
  charListLe a.data b.data

/-- The sort key comparison of `stabilize`: compare lowercased strings. -/
def lowerLe (a b : String) : Bool :=
  strLeB (strLower a) (strLower b)

/-- The distinct values of a list in first-occurrence order: the
    contents of `set(values)`; the real set's iteration order is some
    permutation of this list (see `isSetOrder`). -/
def dedupAux (seen : List String) : List String → List String
  | [] => []
  | x :: xs => if x ∈ seen then dedupAux seen xs else x :: dedupAux (x :: seen) xs

/-- Stable insertion of `x` into a `lowerLe`-sorted list: `x` is placed
    before the first element it compares `lowerLe` to, hence before
    equal-keyed elements, which are all originally later than `x`. -/
def insLower (x : String) : List String → List String
  | [] => [x]
  | y :: ys => if lowerLe x y then x :: y :: ys else y :: insLower x ys

/-- Stable insertion sort by the lowercase key (the model of
    `sorted(·, key=str.lower)`). -/
def isortLower : List String → List String
  | [] => []
  | x :: xs => insLower x (isortLower xs)

/-- Embedding of `stabilize` restricted to lists of strings (the only
    shape the adapter normalizes): `sorted(set(values), key=str.lower)`
    under the first-occurrence set order; see the section comment. -/
def stabilizeStr (values : List String) : List String :=
  isortLower (dedupAux [] values)

/-- `order` is a possible iteration order of CPython `set(values)`: some
    enumeration of the distinct values.  The real iteration order is
    hash-randomized and unspecified, so a property of `stabilize` that
    depends on the order of case-insensitive ties must be proven for
    every such order. -/
def isSetOrder (values order : List String) : Prop :=
  order.Perm (dedupAux [] values)




/-! ## JSON values and a model of Python `json.loads`.

  `JValue` represents the JSON data the two adapters manipulate.  The
  parser below models `json.loads` on the JSON subset this program
  exchanges: objects, arrays, strings (with the standard escapes and
  non-surrogate `\uXXXX`), integers, booleans and null; the whole input
  must be consumed apart from whitespace, and on duplicate object keys the
  later value wins, as in CPython.  Floats are outside the model. -/

inductive JValue where
  | null
  | bool (b : Bool)
  | num (n : Int)
  | str (s : String)
  | arr (items : List JValue)
  | obj (fields : List (String × JValue))

/-- Insertion into a JSON object with CPython dict semantics. -/
def jObjInsert (fields : List (String × JValue)) (k : String) (v : JValue) :
    List (String × JValue) :=
  match fields with
  | [] => [(k, v)]
  | (k', v') :: rest =>
    if k' == k then (k, v) :: rest else (k', v') :: jObjInsert rest k v

/-- JSON whitespace (exactly the four characters `json` skips). -/
def jSkipWs : List Char → List Char
  | [] => []
  | c :: r => if c == ' ' || c == '\t' || c == '\n' || c == '\r' then jSkipWs r else c :: r

def hexVal (c : Char) : Option Nat :=
  if '0' ≤ c && c ≤ '9' then some (c.toNat - 48)
  else if 'a' ≤ c && c ≤ 'f' then some (c.toNat - 87)
  else if 'A' ≤ c && c ≤ 'F' then some (c.toNat - 55)
  else none

/-- Parse the body of a JSON string (after the opening quote), returning
    the decoded characters and the input after the closing quote. -/
def jParseStrAux : Nat → List Char → List Char → Option (List Char × List Char)
  | 0, _, _ => none
  | _ + 1, _, [] => none
  | fuel + 1, acc, c :: rest =>
    if c == '"' then some (acc.reverse, rest)
    else if c == '\\' then
      match rest with
      | [] => none
      | e :: rest2 =>
        if e == '"' then jParseStrAux fuel ('"' :: acc) rest2
        else if e == '\\' then jParseStrAux fuel ('\\' :: acc) rest2
        else if e == '/' then jParseStrAux fuel ('/' :: acc) rest2
        else if e == 'n' then jParseStrAux fuel ('\n' :: acc) rest2
        else if e == 't' then jParseStrAux fuel ('\t' :: acc) rest2
        else if e == 'r' then jParseStrAux fuel ('\r' :: acc) rest2
        else if e == 'b' then jParseStrAux fuel ('\x08' :: acc) rest2
        else if e == 'f' then jParseStrAux fuel ('\x0c' :: acc) rest2
        else if e == 'u' then
          match rest2 with
          | h1 :: h2 :: h3 :: h4 :: rest3 =>
            match hexVal h1, hexVal h2, hexVal h3, hexVal h4 with
            | some a, some b, some c3, some d =>
              let n := ((a * 16 + b) * 16 + c3) * 16 + d
              if n < 0xd800 then
                jParseStrAux fuel (Char.ofNat n :: acc) rest3
              else none
            | _, _, _, _ => none
          | _ => none
        else none
    else jParseStrAux fuel (c :: acc) rest

def digitsToNat (ds : List Char) : Nat :=
  ds.foldl (fun a c => a * 10 + (c.toNat - 48)) 0

/-- Parse an integer JSON number; inputs that continue with a fraction or
    exponent are outside the modelled subset. -/
def jParseNum : List Char → Option (JValue × List Char)
  | s =>
    let (neg, s1) := match s with
                     | '-' :: r => (true, r)
                     | r => (false, r)
    let ds := s1.takeWhile Char.isDigit
    let r := s1.dropWhile Char.isDigit
    if ds.isEmpty then none
    else
      match r with
      | '.' :: _ => none
      | 'e' :: _ => none
      | 'E' :: _ => none
      | _ =>
        let n : Int := Int.ofNat (digitsToNat ds)
        some (.num (if neg then -n else n), r)

mutual

/-- Parse one JSON value; `fuel` bounds the recursion. -/
def jParseVal : Nat → List Char → Option (JValue × List Char)
  | 0, _ => none
  | fuel + 1, s =>
    match jSkipWs s with
    | [] => none
    | c :: rest =>
      if c == '"' then
        match jParseStrAux (rest.length + 1) [] rest with
        | some (cs, r) => some (.str ⟨cs⟩, r)
        | none => none
      else if c == lbrace then
        match jSkipWs rest with
        | d :: r2 =>
          if d == rbrace then some (.obj [], r2)
          else jParseObjLoop fuel [] (jSkipWs rest)
        | [] => none
      else if c == '[' then
        match jSkipWs rest with
        | ']' :: r2 => some (.arr [], r2)
        | _ => jParseArrLoop fuel [] (jSkipWs rest)
      else if c == 't' then
        if ['r', 'u', 'e'].isPrefixOf rest then some (.bool true, rest.drop 3) else none
      else if c == 'f' then
        if ['a', 'l', 's', 'e'].isPrefixOf rest then some (.bool false, rest.drop 4) else none
      else if c == 'n' then
        if ['u', 'l', 'l'].isPrefixOf rest then some (.null, rest.drop 3) else none
      else if c == '-' || c.isDigit then
        jParseNum (c :: rest)
      else none

/-- Parse the remaining elements of a non-empty JSON array. -/
def jParseArrLoop : Nat → List JValue → List Char → Option (JValue × List Char)
  | 0, _, _ => none
  | fuel + 1, acc, s =>
    match jParseVal fuel s with
    | none => none
    | some (v, r) =>
      match jSkipWs r with
      | ',' :: r2 => jParseArrLoop fuel (v :: acc) r2
      | ']' :: r2 => some (.arr (v :: acc).reverse, r2)
      | _ => none

/-- Parse the remaining members of a non-empty JSON object. -/
def jParseObjLoop : Nat → List (String × JValue) → List Char →
    Option (JValue × List Char)
  | 0, _, _ => none
  | fuel + 1, acc, s =>
    match jSkipWs s with
    | '"' :: rest =>
      match jParseStrAux (rest.length + 1) [] rest with
      | some (k, r) =>
        match jSkipWs r with
        | ':' :: r2 =>
          match jParseVal fuel r2 with
          | some (v, r3) =>
            let acc1 := jObjInsert acc ⟨k⟩ v
            match jSkipWs r3 with
            | ',' :: r4 => jParseObjLoop fuel acc1 r4
            | d :: r4 => if d == rbrace then some (.obj acc1, r4) else none
            | [] => none
          | none => none
        | _ => none
      | none => none
    | _ => none

end

/-- Model of Python `json.loads` (see the section comment for the
    modelled subset): parse one value and require that only whitespace
    follows. -/
def json_loads (s : String) : Option JValue :=
  match jParseVal (s.data.length + 1) s.data with
  | some (v, rest) => if (jSkipWs rest).isEmpty then some v else none
  | none => none

/-- The `status` field of a JSON object result, when it is a string. -/
def statusOf (v : JValue) : Option String :=
  match v with
  | .obj fs =>
    match lookupFn fs "status" with
    | some (.str s) => some s
    | _ => none
  | _ => none

/-! ## The regex fallback of `run_role_refinement`:
  `re.search(r"\{(?:[^{}]|(?:\{[^{}]*\}))*\}", raw, re.DOTALL)`.

  The pattern matches a braced region whose content is any mix of
  non-brace characters and singly-nested brace groups.  At a fixed start
  position matching is deterministic (no alternative can start at the
  same character as another), so `re.search` returns the region at the
  leftmost position where the match succeeds, computed below. -/

/-- Match the pattern's body after an opening brace; returns the matched
    characters including the closing brace. -/
def regionAfterBrace : Nat → List Char → Option (List Char)
  | 0, _ => none
  | _ + 1, [] => none
  | fuel + 1, c :: rest =>
    if c == rbrace then some [c]
    else if c == lbrace then
      let inner := rest.takeWhile (fun d => !(d == lbrace) && !(d == rbrace))
      match rest.dropWhile (fun d => !(d == lbrace) && !(d == rbrace)) with
      | [] => none
      | d :: r2 =>
        if d == rbrace then
          match regionAfterBrace fuel r2 with
          | some tail => some (c :: (inner ++ d :: tail))
          | none => none
        else none
    else
      match regionAfterBrace fuel rest with
      | some tail => some (c :: tail)
      | none => none

/-- `re.search` for the brace-region pattern: the match at the leftmost
    position where one succeeds. -/
def reFindBraceRegion : List Char → Option (List Char)
  | [] => none
  | c :: rest =>
    if c == lbrace then
      match regionAfterBrace (rest.length + 1) rest with
      | some body => some (c :: body)
      | none => reFindBraceRegion rest
    else reFindBraceRegion rest

/-! ## The role-refinement adapter (`run_role_refinement`,
  boolean_string_recommendation.py lines 214-248).

  The external model call is abstracted: the function is modelled as a
  function of the model's reply text (`response.text`); the user input
  only influences the prompt sent out.  Python exceptions escaping the
  function are modelled as `Except.error`; the returned pydantic object
  is modelled as the validated JSON value. -/

/-- An exception raised by the adapter code. -/
inductive PyExc where
  | valueError (msg : String)
  | jsonDecodeError
  | validationError
  | attributeError
  | typeError
deriving DecidableEq

/-- Python `str.title()` (ASCII): uppercase every letter that follows a
    non-letter, lowercase the other letters. -/
def pyTitleAux : Bool → List Char → List Char
  | _, [] => []
  | prevCased, c :: rest =>
    if c.isAlpha then
      (if prevCased then c.toLower else c.toUpper) :: pyTitleAux true rest
    else c :: pyTitleAux false rest

/-- Python `str.title()`. -/
def pyTitle (s : String) : String :=
  ⟨pyTitleAux false s.data⟩

/-- Embedding of `clean_boolean_string` (boolean_string_recommendation.py
    lines 204-207): `""` unless the value is a string, else delete every
    backslash and strip. -/
def clean_boolean_string (v : JValue) : String :=
  match v with
  | .str s => pyStrip (strDeleteAll s "\x5c")
  | _ => ""

/-- Are all elements strings?  (`sorted(set(·), key=str.lower)` raises
    `TypeError` otherwise: unhashable elements at `set`, non-strings at
    `str.lower`.) -/
def allStrings : List JValue → Option (List String)
  | [] => some []
  | .str s :: rest => (allStrings rest).map (s :: ·)
  | _ :: _ => none

/-- Embedding of `stabilize` on a JSON value: non-lists are returned
    unchanged; lists of strings are deduplicated and sorted
    case-insensitively; lists with non-string elements raise. -/
def stabilizeJ (v : JValue) : Except PyExc JValue :=
  match v with
  | .arr items =>
    match allStrings items with
    | some ss => .ok (.arr ((stabilizeStr ss).map JValue.str))
    | none => .error .typeError
  | other => .ok other

/-- The three `stabilize` assignments and the `industry_focus`
    normalization applied to the `refined_role` dict (lines 235-240);
    `rr.get("industry_focus", "").title()` raises `AttributeError` when
    the field holds a non-string. -/
def transformRR (rr : List (String × JValue)) : Except PyExc (List (String × JValue)) := do
  let v1 ← stabilizeJ ((lookupFn rr "related_titles").getD (.arr []))
  let rr := jObjInsert rr "related_titles" v1
  let v2 ← stabilizeJ ((lookupFn rr "core_skills").getD (.arr []))
  let rr := jObjInsert rr "core_skills" v2
  let v3 ← stabilizeJ ((lookupFn rr "nice_to_have").getD (.arr []))
  let rr := jObjInsert rr "nice_to_have" v3
  match (lookupFn rr "industry_focus").getD (.str "") with
  | .str s =>
    let t := pyTitle s
    pure (jObjInsert rr "industry_focus" (.str (if t == "" then "General" else t)))
  | _ => .error .attributeError

/-- The two `clean_boolean_string` assignments applied to the
    `boolean_search` dict (lines 243-245). -/
def transformBS (b : List (String × JValue)) : List (String × JValue) :=
  let b1 := jObjInsert b "linkedin"
    (.str (clean_boolean_string ((lookupFn b "linkedin").getD (.str ""))))
  jObjInsert b1 "job_boards"
    (.str (clean_boolean_string ((lookupFn b1 "job_boards").getD (.str ""))))

/-- Lines 234-245 of the source: `rr = data.get("refined_role", \x7b\x7d)` with
    in-place mutation (lost when the key is missing, since the fresh dict
    is never written back; `AttributeError` when the value is not a
    dict), then the same for `boolean_search`. -/
def rrTransform (data : JValue) : Except PyExc JValue := do
  match data with
  | .obj fields =>
    let fields1 ←
      match lookupFn fields "refined_role" with
      | none => pure fields
      | some (.obj rr) => do
        let rr' ← transformRR rr
        pure (jObjInsert fields "refined_role" (.obj rr'))
      | some _ => Except.error .attributeError
    let fields2 ←
      match lookupFn fields1 "boolean_search" with
      | none => pure fields1
      | some (.obj b) => pure (jObjInsert fields1 "boolean_search" (.obj (transformBS b)))
      | some _ => Except.error .attributeError
    pure (JValue.obj fields2)
  | _ => Except.error .attributeError

/-- Is the field a string?  (pydantic `str`.) -/
def strField (fs : List (String × JValue)) (k : String) : Bool :=
  match lookupFn fs k with
  | some (.str _) => true
  | _ => false

def isStrJ : JValue → Bool
  | .str _ => true
  | _ => false

/-- Is the field a list of strings?  (pydantic `List[str]`.) -/
def strListField (fs : List (String × JValue)) (k : String) : Bool :=
  match lookupFn fs k with
  | some (.arr items) => items.all isStrJ
  | _ => false

/-- pydantic validation of `RefinedRole` (lines 15-21). -/
def validRefinedRole (fs : List (String × JValue)) : Bool :=
  strField fs "main_title" && strListField fs "related_titles"
    && strListField fs "core_skills" && strListField fs "nice_to_have"
    && strField fs "seniority_level" && strField fs "industry_focus"

/-- pydantic validation of `BooleanSearch` (lines 24-26). -/
def validBooleanSearch (fs : List (String × JValue)) : Bool :=
  strField fs "linkedin" && strField fs "job_boards"

/-- pydantic validation of `RoleRefinementOutput(**data)` (lines 29-34):
    `status` a literal "ok"/"needs_clarification", `missing_info` a list
    of strings, nested `refined_role` and `boolean_search` records,
    `notes` a string; extra keys are ignored. -/
def validateRRO (v : JValue) : Bool :=
  match v with
  | .obj fs =>
    (match lookupFn fs "status" with
     | some (.str s) => s == "ok" || s == "needs_clarification"
     | _ => false)
    && strListField fs "missing_info"
    && (match lookupFn fs "refined_role" with
        | some (.obj rf) => validRefinedRole rf
        | _ => false)
    && (match lookupFn fs "boolean_search" with
        | some (.obj bf) => validBooleanSearch bf
        | _ => false)
    && strField fs "notes"
  | _ => false

/-- Lines 224-231 of the source: `json.loads(raw)`, falling back to the
    first regex brace region, raising `ValueError` when there is none and
    `json.JSONDecodeError` (uncaught) when the region itself is not valid
    JSON. -/
def rrParse (raw : String) : Except PyExc JValue :=
  match json_loads raw with
  | some v => .ok v
  | none =>
    match reFindBraceRegion raw.data with
    | none => .error (.valueError "AI output did not contain valid JSON.")
    | some region =>
      match json_loads ⟨region⟩ with
      | some v => .ok v
      | none => .error .jsonDecodeError

/-- Embedding of `run_role_refinement` as a function of the model's reply
    text: strip the reply, extract JSON (lines 221-231), normalize list
    fields and Boolean strings in place (lines 234-245), validate against
    `RoleRefinementOutput` (line 248).  `Except.error` is an exception
    propagating to the caller. -/
def run_role_refinement (replyText : String) : Except PyExc JValue :=
  match rrParse (pyStrip replyText) with
  | .error e => .error e
  | .ok data =>
    match rrTransform data with
    | .error e => .error e
    | .ok data1 =>
      if validateRRO data1 then .ok data1 else .error .validationError

/-! ## The JD adapter (`generate_inclusive_jd`,
  Inclusive_Job_Descriptor.py lines 157-205).

  The configuration lookup is modelled by the two optional key arguments
  (the `api_key` parameter and the `GOOGLE_API_KEY` environment value,
  combined with Python `or`, which treats `""` as absent), and the
  external call by the `modelReply` argument: the reply text on success,
  or the exception message.  The returned pair records the result dict
  and whether the external call was made. -/

/-- Python truthiness of an optional string. -/
def pyTruthy : Option String → Bool
  | none => false
  | some s => !(s == "")

/-- The `\x7b"status": "error", "notes": ...\x7d` dict built in the `except`
    branch (lines 201-205).  The note for a `json.loads` failure is the
    `JSONDecodeError` text, abstracted here as its fixed prefix. -/
def errObjJD (notes : String) : JValue :=
  .obj [("status", .str "error"), ("notes", .str notes)]

def jsonDecodeNote : String := "Expecting value"

/-- Lines 192-197: remove accidental code-fence formatting: if the reply
    starts with a fence and splits into at least three fence-separated
    parts, keep the first fenced part, dropping a leading "json" tag. -/
def jdStripFence (text : String) : String :=
  if strStartsWithB text "```" then
    let parts := pySplit text "```"
    if parts.length ≥ 3 then
      let t := parts.getD 1 ""
      if strStartsWithB t "json" then pyLStrip (strDrop t 4) else t
    else text
  else text

/-- The result the JD adapter produces from a given model reply (the
    `try` body and `except` branch, lines 187-205): strip, de-fence,
    `json.loads`; any exception raised inside becomes the error dict. -/
def jdReplyResult (modelReply : Except String String) : JValue :=
  match modelReply with
  | .error e => errObjJD ("Generation failed: " ++ e)
  | .ok t =>
    match json_loads (jdStripFence (pyStrip t)) with
    | some v => v
    | none => errObjJD ("Generation failed: " ++ jsonDecodeNote)

/-- Embedding of `generate_inclusive_jd`.  The second component of the
    result records whether the external generation call was invoked. -/
def generate_inclusive_jd (_input_data : JValue) (apiKey : Option String)
    (envKey : Option String) (modelReply : Except String String) : JValue × Bool :=
  let key := if pyTruthy apiKey then apiKey else envKey
  if pyTruthy key then
    match modelReply with
    | .error e => (errObjJD ("Generation failed: " ++ e), true)
    | .ok t =>
      match json_loads (jdStripFence (pyStrip t)) with
      | some v => (v, true)
      | none => (errObjJD ("Generation failed: " ++ jsonDecodeNote), true)
  else
    (.obj [("status", .str "error"),
           ("notes", .str "Missing Google API Key. Set GOOGLE_API_KEY in .env.")],
     false)

/-- Modelled from the spec: the JD adapter's fixed output schema (spec
    section 6, "Adapter output (JD)", and the SYSTEM_PROMPT's strict
    output structure): `status`, `missing_info` (list of strings),
    `job_description` (object) and `notes` must be present.  The adapter
    code itself contains no such check; this predicate only expresses the
    schema that claims C2 refers to. -/
def validateJD (v : JValue) : Bool :=
  match v with
  | .obj fs =>
    (match lookupFn fs "status" with
     | some (.str _) => true
     | _ => false)
    && strListField fs "missing_info"
    && (match lookupFn fs "job_description" with
        | some (.obj _) => true
        | _ => false)
    && strField fs "notes"
  | _ => false


/-- A well-formed model reply for the role-refinement adapter on which
    every normalization step is the identity (lists already deduplicated
    and sorted, industry focus already title-case, no backslashes). -/
def rroGoodReply : String :=
  "\x7b\"status\": \"ok\", \"missing_info\": [], \"refined_role\": \x7b\"main_title\": \"HR Manager\", \"related_titles\": [\"a\", \"b\"], \"core_skills\": [], \"nice_to_have\": [], \"seniority_level\": \"Mid\", \"industry_focus\": \"Tech\"\x7d, \"boolean_search\": \x7b\"linkedin\": \"x\", \"job_boards\": \"y\"\x7d, \"notes\": \"n\"\x7d"

/-- The JSON value `rroGoodReply` parses to. -/
def rroGoodValue : JValue :=
  .obj [("status", .str "ok"), ("missing_info", .arr []),
        ("refined_role", .obj [("main_title", .str "HR Manager"),
          ("related_titles", .arr [.str "a", .str "b"]),
          ("core_skills", .arr []), ("nice_to_have", .arr []),
          ("seniority_level", .str "Mid"), ("industry_focus", .str "Tech")]),
        ("boolean_search", .obj [("linkedin", .str "x"), ("job_boards", .str "y")]),
        ("notes", .str "n")]

/-! ## Helper lemmas -/

theorem paramsFold_eq_filterMap (parts : List String) (acc : List (String × String)) :
    parts.foldl
      (fun params part =>
        if strContainsChar part '=' then
          let kv := pySplit1 part "="
          dictInsert params (pyStrip kv.1) (pyStrip kv.2)
        else params)
      acc
    = (parts.filterMap
        (fun seg =>
          if strContainsChar seg '=' then
            some (pyStrip (pySplit1 seg "=").1, pyStrip (pySplit1 seg "=").2)
          else none)).foldl (fun m kv => dictInsert m kv.1 kv.2) acc := by
  induction parts generalizing acc with
  | nil => rfl
  | cons p ps ih =>
    by_cases h : strContainsChar p '=' = true
    · simp only [List.foldl_cons, List.filterMap_cons, h, if_pos]
      exact ih _
    · simp only [List.foldl_cons, List.filterMap_cons]
      rw [if_neg h, if_neg h]
      exact ih acc

theorem dedupAux_eq_self (l : List String) :
    ∀ seen, l.Pairwise (· ≠ ·) → (∀ x ∈ l, x ∉ seen) → dedupAux seen l = l := by
  induction l with
  | nil => intro seen _ _; rfl
  | cons x xs ih =>
    intro seen hnd hs
    have hx : x ∉ seen := hs x (List.mem_cons_self x xs)
    rw [dedupAux, if_neg hx]
    congr 1
    refine ih (x :: seen) (List.Pairwise.of_cons hnd) ?_
    intro y hy
    rcases List.pairwise_cons.mp hnd with ⟨hxy, _⟩
    intro hy'
    rcases List.mem_cons.mp hy' with h | h
    · exact (hxy y hy) h.symm
    · exact hs y (List.mem_cons_of_mem x hy) h

theorem insLower_sorted_head (x : String) (xs : List String)
    (h : ∀ y ∈ xs, lowerLe x y = true) : insLower x xs = x :: xs := by
  cases xs with
  | nil => rfl
  | cons y ys =>
    rw [insLower, if_pos (h y (List.mem_cons_self y ys))]

theorem isortLower_sorted_eq_self (l : List String)
    (h : l.Pairwise (fun a b => lowerLe a b = true)) : isortLower l = l := by
  induction l with
  | nil => rfl
  | cons x xs ih =>
    rcases List.pairwise_cons.mp h with ⟨hx, hxs⟩
    rw [isortLower, ih hxs, insLower_sorted_head x xs hx]

theorem findSome?_eq_some_mem {α β : Type} (f : α → Option β) :
    ∀ (l : List α) (b : β), l.findSome? f = some b → ∃ a ∈ l, f a = some b := by
  intro l
  induction l with
  | nil => intro b h; simp [List.findSome?] at h
  | cons x xs ih =>
    intro b h
    rw [List.findSome?_cons] at h
    cases hfx : f x with
    | some y =>
      simp only [hfx] at h
      exact ⟨x, List.mem_cons_self x xs, by rw [hfx, h]⟩
    | none =>
      simp only [hfx] at h
      obtain ⟨a, ha, hfa⟩ := ih b h
      exact ⟨a, List.mem_cons_of_mem x ha, hfa⟩

theorem findSome?_append_left_none {α β : Type} (f : α → Option β)
    (l1 l2 : List α) (h : ∀ a ∈ l1, f a = none) :
    (l1 ++ l2).findSome? f = l2.findSome? f := by
  induction l1 with
  | nil => rfl
  | cons x xs ih =>
    rw [List.cons_append, List.findSome?_cons, h x (List.mem_cons_self x xs)]
    exact ih (fun a ha => h a (List.mem_cons_of_mem x ha))

theorem findSome?_none_of_all {α β : Type} (f : α → Option β)
    (l : List α) (h : ∀ a ∈ l, f a = none) : l.findSome? f = none := by
  induction l with
  | nil => rfl
  | cons x xs ih =>
    rw [List.findSome?_cons, h x (List.mem_cons_self x xs)]
    exact ih (fun a ha => h a (List.mem_cons_of_mem x ha))

theorem uint32_eq_of_not_lt {a b : UInt32} (h1 : ¬ a < b) (h2 : ¬ b < a) : a = b :=
  UInt32.eq_of_val_eq (Fin.ext (Nat.le_antisymm (Nat.le_of_not_lt h2) (Nat.le_of_not_lt h1)))

theorem str_eq_of_data {a b : String} (h : a.data = b.data) : a = b := by
  cases a with
  | mk da =>
    cases b with
    | mk db => cases h; rfl

theorem charListLe_total : ∀ a b : List Char, charListLe a b = true ∨ charListLe b a = true := by
  intro a
  induction a with
  | nil => intro b; left; rfl
  | cons x xs ih =>
    intro b
    cases b with
    | nil => right; rfl
    | cons y ys =>
      by_cases h1 : x.val < y.val
      · left; rw [charListLe, if_pos h1]
      · by_cases h2 : y.val < x.val
        · right; rw [charListLe, if_pos h2]
        · rcases ih ys with h | h
          · left; rw [charListLe, if_neg h1, if_neg h2]; exact h
          · right; rw [charListLe, if_neg h2, if_neg h1]; exact h

theorem charListLe_trans : ∀ a b c : List Char,
    charListLe a b = true → charListLe b c = true → charListLe a c = true := by
  intro a
  induction a with
  | nil => intro b c _ _; rfl
  | cons x xs ih =>
    intro b c h1 h2
    cases b with
    | nil => rw [charListLe] at h1; cases h1
    | cons y ys =>
      cases c with
      | nil => rw [charListLe] at h2; cases h2
      | cons z zs =>
        rw [charListLe] at h1 h2 ⊢
        by_cases hxy : x.val < y.val
        · by_cases hyz : y.val < z.val
          · rw [if_pos (show x.val < z.val from Nat.lt_trans hxy hyz)]
          · by_cases hzy : z.val < y.val
            · rw [if_neg hyz, if_pos hzy] at h2; cases h2
            · have hv : y.val = z.val := uint32_eq_of_not_lt hyz hzy
              rw [if_pos (show x.val < z.val by rw [← hv]; exact hxy)]
        · by_cases hyx : y.val < x.val
          · rw [if_neg hxy, if_pos hyx] at h1; cases h1
          · have hv : x.val = y.val := uint32_eq_of_not_lt hxy hyx
            rw [if_neg hxy, if_neg hyx] at h1
            by_cases hyz : y.val < z.val
            · rw [if_pos (show x.val < z.val by rw [hv]; exact hyz)]
            · by_cases hzy : z.val < y.val
              · rw [if_neg hyz, if_pos hzy] at h2; cases h2
              · have hv2 : y.val = z.val := uint32_eq_of_not_lt hyz hzy
                rw [if_neg hyz, if_neg hzy] at h2
                have hxz : x.val = z.val := hv.trans hv2
                rw [if_neg (show ¬ x.val < z.val by rw [hxz]; exact Nat.lt_irrefl _),
                  if_neg (show ¬ z.val < x.val by rw [hxz]; exact Nat.lt_irrefl _)]
                exact ih ys zs h1 h2

theorem charListLe_antisymm : ∀ a b : List Char,
    charListLe a b = true → charListLe b a = true → a = b := by
  intro a
  induction a with
  | nil =>
    intro b _ h2
    cases b with
    | nil => rfl
    | cons y ys => rw [charListLe] at h2; cases h2
  | cons x xs ih =>
    intro b h1 h2
    cases b with
    | nil => rw [charListLe] at h1; cases h1
    | cons y ys =>
      rw [charListLe] at h1 h2
      by_cases hxy : x.val < y.val
      · rw [if_neg (show ¬ y.val < x.val from Nat.lt_asymm hxy), if_pos hxy] at h2
        cases h2
      · by_cases hyx : y.val < x.val
        · rw [if_neg hxy, if_pos hyx] at h1; cases h1
        · have hc : x = y := Char.ext (uint32_eq_of_not_lt hxy hyx)
          subst hc
          rw [if_neg hxy, if_neg hyx] at h1
          rw [if_neg hyx, if_neg hxy] at h2
          rw [ih ys h1 h2]

theorem lowerLe_total (a b : String) : lowerLe a b = true ∨ lowerLe b a = true :=
  charListLe_total _ _

theorem lowerLe_trans {a b c : String} (h1 : lowerLe a b = true)
    (h2 : lowerLe b c = true) : lowerLe a c = true :=
  charListLe_trans _ _ _ h1 h2

theorem strLower_eq_of_antisymm {a b : String} (h1 : lowerLe a b = true)
    (h2 : lowerLe b a = true) : strLower a = strLower b :=
  str_eq_of_data (charListLe_antisymm _ _ h1 h2)

theorem insLower_perm (x : String) : ∀ l : List String, (insLower x l).Perm (x :: l) := by
  intro l
  induction l with
  | nil => exact List.Perm.refl _
  | cons y ys ih =>
    by_cases h : lowerLe x y = true
    · rw [insLower, if_pos h]
    · rw [insLower, if_neg h]
      exact (ih.cons y).trans (List.Perm.swap x y ys)

theorem isortLower_perm : ∀ l : List String, (isortLower l).Perm l := by
  intro l
  induction l with
  | nil => exact List.Perm.refl _
  | cons x xs ih =>
    rw [isortLower]
    exact (insLower_perm x (isortLower xs)).trans (ih.cons x)

theorem insLower_pairwise_le (x : String) :
    ∀ l : List String, l.Pairwise (fun a b => lowerLe a b = true) →
    (insLower x l).Pairwise (fun a b => lowerLe a b = true) := by
  intro l
  induction l with
  | nil =>
    intro _
    rw [insLower]
    exact List.pairwise_singleton _ x
  | cons y ys ih =>
    intro hp
    rcases List.pairwise_cons.mp hp with ⟨hy, hys⟩
    by_cases h : lowerLe x y = true
    · rw [insLower, if_pos h]
      refine List.pairwise_cons.mpr ⟨?_, hp⟩
      intro z hz
      rcases List.mem_cons.mp hz with rfl | hz1
      · exact h
      · exact lowerLe_trans h (hy z hz1)
    · rw [insLower, if_neg h]
      have hyx : lowerLe y x = true := (lowerLe_total x y).resolve_left h
      refine List.pairwise_cons.mpr ⟨?_, ih hys⟩
      intro z hz
      rcases List.mem_cons.mp ((insLower_perm x ys).mem_iff.mp hz) with rfl | hz1
      · exact hyx
      · exact hy z hz1

theorem isortLower_pairwise_le :
    ∀ l : List String, (isortLower l).Pairwise (fun a b => lowerLe a b = true) := by
  intro l
  induction l with
  | nil => exact List.Pairwise.nil
  | cons x xs ih =>
    rw [isortLower]
    exact insLower_pairwise_le x _ ih

theorem sorted_perm_strict_eq :
    ∀ (l2 l1 : List String), l1.Perm l2 →
      l1.Pairwise (fun a b => lowerLe a b = true) →
      l2.Pairwise (fun a b => lowerLe a b = true ∧ strLower a ≠ strLower b) →
      l1 = l2 := by
  intro l2
  induction l2 with
  | nil => intro l1 hp _ _; exact hp.eq_nil
  | cons y t2 ih =>
    intro l1 hp hs1 hs2
    cases l1 with
    | nil =>
      have hnil := hp.symm.eq_nil
      cases hnil
    | cons x t1 =>
      have hx : x = y := by
        have hx2 : x ∈ y :: t2 := hp.mem_iff.mp (List.mem_cons_self x t1)
        rcases List.mem_cons.mp hx2 with h0 | hx3
        · exact h0
        · have hy1 : y ∈ x :: t1 := hp.symm.mem_iff.mp (List.mem_cons_self y t2)
          rcases List.mem_cons.mp hy1 with h0 | hy2
          · exact h0.symm
          · have hxy : lowerLe x y = true := (List.pairwise_cons.mp hs1).1 y hy2
            obtain ⟨hyx, hne⟩ := (List.pairwise_cons.mp hs2).1 x hx3
            exact absurd (strLower_eq_of_antisymm hxy hyx).symm hne
      subst hx
      have ht : t1.Perm t2 := hp.cons_inv
      rw [ih t1 ht (List.Pairwise.of_cons hs1) (List.Pairwise.of_cons hs2)]

theorem isort_of_perm_strict (t order : List String)
    (hs : t.Pairwise (fun a b => lowerLe a b = true ∧ strLower a ≠ strLower b))
    (hperm : order.Perm t) : isortLower order = t :=
  sorted_perm_strict_eq t (isortLower order) ((isortLower_perm order).trans hperm)
    (isortLower_pairwise_le order) hs


/-! ## Claim C5 -/

/-- C5 counterexample: ["C","c"] is deduplicated by exact value and
    sorted case-insensitively ascending (its two entries share the
    lowercase key "c"), and ["c","C"] is a legitimate iteration order of
    CPython's hash-randomized `set(["C","c"])`; under that order
    `sorted(set(values), key=str.lower)` is ["c","C"] (the stable sort
    keeps the set order on equal keys), which is not the input list — so
    `stabilize` is not idempotent on such lists as the claim states. -/
theorem C5_counterexample :
    isSetOrder ["C", "c"] ["c", "C"]
    ∧ (["C", "c"] : List String).Pairwise (· ≠ ·)
    ∧ (["C", "c"] : List String).Pairwise (fun a b => lowerLe a b = true)
    ∧ isortLower ["c", "C"] = ["c", "C"]
    ∧ (["c", "C"] : List String) ≠ ["C", "c"] :=
  ⟨by show (["c", "C"] : List String).Perm (dedupAux [] ["C", "c"]); decide,
   by decide, by decide, by decide, by decide⟩

/-- C5 amended: `stabilize` (`sorted(set(l), key=str.lower)`) is
    idempotent on lists deduplicated by exact value and sorted
    case-insensitively ascending provided their lowercase keys are
    pairwise distinct: for such lists the result equals the input under
    every possible set iteration order.  Likewise
    stabilize(["b","a","a","C"]) equals ["a","b","C"] under every set
    iteration order (case-insensitive order, original casing preserved,
    duplicates by exact value removed), in particular for the
    first-occurrence instance `stabilizeStr`.  On case-insensitive ties
    the output order follows the hash-randomized set order, as the
    counterexample shows. -/
theorem C5_stabilize_idempotent_distinct_keys :
    (∀ l order : List String,
      l.Pairwise (fun a b => lowerLe a b = true ∧ strLower a ≠ strLower b) →
      isSetOrder l order → isortLower order = l)
    ∧ (∀ order : List String, isSetOrder ["b", "a", "a", "C"] order →
        isortLower order = ["a", "b", "C"])
    ∧ stabilizeStr ["b", "a", "a", "C"] = ["a", "b", "C"] := by
  refine ⟨?_, ?_, by decide⟩
  · intro l order hs hord
    have hnd : l.Pairwise (· ≠ ·) :=
      hs.imp (fun h he => h.2 (congrArg strLower he))
    have hded : dedupAux [] l = l :=
      dedupAux_eq_self l [] hnd (fun x _ hx => absurd hx (List.not_mem_nil x))
    have hord1 : order.Perm (dedupAux [] l) := hord
    exact isort_of_perm_strict l order hs (hded ▸ hord1)
  · intro order hord
    have hord1 : order.Perm (dedupAux [] ["b", "a", "a", "C"]) := hord
    exact isort_of_perm_strict ["a", "b", "C"] order (by decide)
      (hord1.trans (by decide))

/-- Witness for C5 at concrete inputs: the already-sorted set order is a
    fixed point, and a scrambled set order of ["b","a","a","C"]
    normalizes to ["a","b","C"]. -/
theorem C5_stabilize_idempotent_distinct_keys_witness :
    isortLower ["a", "b", "C"] = ["a", "b", "C"]
    ∧ isortLower ["C", "b", "a"] = ["a", "b", "C"] :=
  ⟨C5_stabilize_idempotent_distinct_keys.1 ["a", "b", "C"] ["a", "b", "C"] (by decide)
     (by show (["a", "b", "C"] : List String).Perm (dedupAux [] ["a", "b", "C"]); decide),
   C5_stabilize_idempotent_distinct_keys.2.1 ["C", "b", "a"]
     (by show (["C", "b", "a"] : List String).Perm (dedupAux [] ["b", "a", "a", "C"]);
         decide)⟩

/-! ## Claim C7 -/

/-- C7: `parse_params_from_message` returns the empty map when the message
    contains no colon; otherwise it takes the text after the first colon,
    splits it on commas, splits each segment containing '=' at the first
    '=', trims surrounding whitespace from key and value, silently drops
    segments without '=', and on a repeated key the last occurrence's
    value wins while first-occurrence key order is preserved (equality
    with the spec-side `extractSpec`, plus a duplicate-key example). -/
theorem C7_parse_params :
    (∀ message : String, parse_params_from_message message = extractSpec message)
    ∧ parse_params_from_message "go: a=1, b = 2, junk, a=3" = [("a", "3"), ("b", "2")] := by
  constructor
  · intro m
    unfold parse_params_from_message extractSpec
    by_cases h : strContainsChar m ':' = true
    · have hne : ¬((!strContainsChar m ':') = true) := by rw [h]; simp
      rw [if_pos h, if_neg hne]
      exact paramsFold_eq_filterMap _ _
    · have hb : strContainsChar m ':' = false := by
        cases hc : strContainsChar m ':' with
        | false => rfl
        | true => exact absurd hc h
      rw [if_neg h, if_pos (show (!strContainsChar m ':') = true by rw [hb]; rfl)]
  · decide

/-! ## Claim C9 -/

/-- C9: for every message matching no classifier rule, `route_message`
    returns exactly the fixed clarification sentence and performs no
    parameter extraction or template filling (the unknown branch returns
    before either happens). -/
theorem C9_unknown_clarification (message : String)
    (h : get_intent message = none) :
    route_message message =
      "Sorry, I didn't understand your request. Could you please clarify?" := by
  unfold route_message
  rw [h]

/-- Witness for C9 at a message no rule matches. -/
theorem C9_unknown_clarification_witness :
    get_intent "tell me something nice" = none
    ∧ route_message "tell me something nice" =
        "Sorry, I didn't understand your request. Could you please clarify?" :=
  ⟨by decide, C9_unknown_clarification "tell me something nice" (by decide)⟩

/-! ## Claim C10 -/

/-- C10: every non-unknown tag returned by `get_intent` is a key of both
    the agent's handlers mapping and the templates mapping, so the
    dispatch in `route_message` and each handler's template lookup are
    total and can never fail with a missing-key error. -/
theorem C10_dispatch_total (message t : String)
    (h : get_intent message = some t) :
    (lookupFn scoutHandlers t).isSome = true
    ∧ (lookupFn get_templates t).isSome = true := by
  simp only [get_intent] at h
  obtain ⟨pt, hmem, hpt⟩ := findSome?_eq_some_mem _ intentRules t h
  have ht : pt.2 = t := by
    by_cases hr : reSearch pt.1 (strLower message) = true
    · rw [if_pos hr] at hpt
      exact Option.some.inj hpt
    · rw [if_neg hr] at hpt
      cases hpt
  subst ht
  simp only [intentRules, List.mem_cons, List.not_mem_nil, or_false] at hmem
  rcases hmem with h1 | h1 | h1 | h1 | h1 | h1 | h1 | h1 | h1 <;> subst h1 <;>
    exact ⟨rfl, rfl⟩

/-- Witness for C10 at the message "boolean". -/
theorem C10_dispatch_total_witness :
    (lookupFn scoutHandlers "role_refinement").isSome = true
    ∧ (lookupFn get_templates "role_refinement").isSome = true :=
  C10_dispatch_total "boolean" "role_refinement" (by decide)

/-! ## Claim C8 -/

/-- C8: `get_intent` lowercases the input and returns the tag of the first
    rule in the fixed ordered pattern list whose regex matches anywhere in
    the message (conjunct 3, with conjunct 1 the special case of the
    leading role_refinement rule), or `none` when no rule matches
    (conjunct 2); a message containing both "boolean" and "job
    description" wording resolves to role_refinement, whose rule appears
    earlier in the list (conjunct 4). -/
theorem C8_first_match :
    (∀ message : String, reSearch patRoleRefinement (strLower message) = true →
      get_intent message = some "role_refinement")
    ∧ (∀ message : String,
        (∀ pt ∈ intentRules, reSearch pt.1 (strLower message) = false) →
        get_intent message = none)
    ∧ (∀ (message : String) (l1 l2 : List (List Alt × String)) (pat : List Alt)
        (tag : String),
        intentRules = l1 ++ (pat, tag) :: l2 →
        (∀ pt ∈ l1, reSearch pt.1 (strLower message) = false) →
        reSearch pat (strLower message) = true →
        get_intent message = some tag)
    ∧ get_intent "need a boolean search and a job description" = some "role_refinement" := by
  have hgen : ∀ (message : String) (l1 l2 : List (List Alt × String)) (pat : List Alt)
      (tag : String),
      intentRules = l1 ++ (pat, tag) :: l2 →
      (∀ pt ∈ l1, reSearch pt.1 (strLower message) = false) →
      reSearch pat (strLower message) = true →
      get_intent message = some tag := by
    intro message l1 l2 pat tag heq hnone hmatch
    simp only [get_intent]
    rw [heq, findSome?_append_left_none _ l1 _
      (fun a ha => by rw [if_neg]; rw [hnone a ha]; simp),
      List.findSome?_cons]
    simp [hmatch]
  refine ⟨?_, ?_, hgen, by decide⟩
  · intro m hm
    exact hgen m [] _ patRoleRefinement "role_refinement" rfl
      (fun pt h => absurd h (List.not_mem_nil pt)) hm
  · intro m hall
    simp only [get_intent]
    exact findSome?_none_of_all _ _
      (fun a ha => by rw [if_neg]; rw [hall a ha]; simp)

/-- Witness for C8: the leading rule fires on "boolean"; the second rule
    fires on "draft jd please" with the first rule not matching; no rule
    matches "xyzzy". -/
theorem C8_first_match_witness :
    get_intent "boolean" = some "role_refinement"
    ∧ get_intent "draft jd please" = some "inclusive_jd"
    ∧ get_intent "xyzzy" = none :=
  ⟨C8_first_match.1 "boolean" (by decide),
   C8_first_match.2.2.1 "draft jd please" [(patRoleRefinement, "role_refinement")] _
     patInclusiveJd "inclusive_jd" rfl (by decide) (by decide),
   C8_first_match.2.1 "xyzzy" (by decide)⟩


theorem render_contains_field (segs : List Tpl) (args : List (String × String))
    (f : String) (h : Tpl.fld f ∈ segs) :
    ∃ pre post, render segs args = pre ++ (lookupFn args f).getD "" ++ post := by
  induction segs with
  | nil => cases h
  | cons seg rest ih =>
    cases seg with
    | lit s =>
      have h1 : Tpl.fld f ∈ rest := by
        rcases List.mem_cons.mp h with h0 | h0
        · cases h0
        · exact h0
      obtain ⟨pre, post, hp⟩ := ih h1
      refine ⟨s ++ pre, post, ?_⟩
      show s ++ render rest args = s ++ pre ++ (lookupFn args f).getD "" ++ post
      rw [hp]
      simp [String.append_assoc]
    | fld g =>
      by_cases hg : g = f
      · subst hg
        refine ⟨"", render rest args, ?_⟩
        show (lookupFn args g).getD "" ++ render rest args
          = "" ++ (lookupFn args g).getD "" ++ render rest args
        rw [String.empty_append]
      · have h1 : Tpl.fld f ∈ rest := by
          rcases List.mem_cons.mp h with h0 | h0
          · injection h0 with h2
            exact absurd h2.symm hg
          · exact h0
        obtain ⟨pre, post, hp⟩ := ih h1
        refine ⟨(lookupFn args g).getD "" ++ pre, post, ?_⟩
        show (lookupFn args g).getD "" ++ render rest args
          = (lookupFn args g).getD "" ++ pre ++ (lookupFn args f).getD "" ++ post
        rw [hp]
        simp [String.append_assoc]

theorem lookup_mkArgs (fields : List (String × String)) :
    ∀ (params : List (String × String)) (k d : String),
    (k, d) ∈ fields → (fields.map Prod.fst).Nodup →
    (lookupFn (mkArgs fields params) k).getD "" = dictGetD params k d := by
  induction fields with
  | nil => intro params k d hmem _; cases hmem
  | cons kd rest ih =>
    intro params k d hmem hnd
    obtain ⟨k0, d0⟩ := kd
    rcases List.mem_cons.mp hmem with h0 | h0
    · injection h0 with hk hd
      subst hk; subst hd
      show (lookupFn ((k, dictGetD params k d) :: mkArgs rest params) k).getD "" = _
      simp [lookupFn]
    · have hk0 : k0 ≠ k := by
        intro he
        subst he
        have hin : k0 ∈ rest.map Prod.fst :=
          List.mem_map.mpr ⟨(k0, d), h0, rfl⟩
        exact (List.nodup_cons.mp hnd).1 hin
      have hb : (k0 == k) = false := by
        simp [hk0]
      show (lookupFn ((k0, dictGetD params k0 d0) :: mkArgs rest params) k).getD "" = _
      rw [lookupFn, hb]
      simp only [Bool.false_eq_true, if_false]
      exact ih params k d h0 (List.nodup_cons.mp hnd).2

/-! ## Claim C4 -/

set_option maxRecDepth 400000

/-- C4 counterexample: with `role_title` present but empty, the handler
    substitutes the empty extracted value (Python `dict.get` ignores
    emptiness), so the bracketed placeholder "[role title]" does not
    appear in the output, contrary to the claim's "present with a
    non-empty value ... otherwise that field's fixed bracketed placeholder
    appears verbatim". -/
theorem C4_counterexample :
    hasSubstr (handle_inclusive_jd [("role_title", "")]) "[role title]" = false := by
  decide

/-- C4 amended: for every recognized intent and every placeholder declared
    by its template, the handler substitutes `params.get(key, default)` —
    the extracted value whenever the key is present (also when it is
    empty), and otherwise the field's fixed default string, which is a
    bracketed placeholder for most fields but the plain defaults
    "neutral", "professional" and "phone, technical, panel" for
    brand_tone, tone and stages — and the substituted string appears
    verbatim (as a contiguous substring) in the output. -/
theorem C4_placeholder_substitution (intent : String)
    (fields : List (String × String)) (k d : String)
    (params : List (String × String))
    (hintent : (intent, fields) ∈ handlerFields) (hf : (k, d) ∈ fields) :
    ∃ pre post, runHandler intent params = pre ++ dictGetD params k d ++ post := by
  simp only [handlerFields, List.mem_cons, List.not_mem_nil, or_false] at hintent
  rcases hintent with h | h | h | h | h | h | h | h | h
  · injection h with h1 h2
    subst h1; subst h2
    have hseg : ∀ p ∈ handle_role_refinement_fields,
        Tpl.fld p.1 ∈ segsOfAux (ROLE_REFINEMENT_TEMPLATE.data.length + 1) ROLE_REFINEMENT_TEMPLATE.data := by decide
    have hnd : (handle_role_refinement_fields.map Prod.fst).Nodup := by decide
    obtain ⟨pre, post, hp⟩ :=
      render_contains_field _ (mkArgs handle_role_refinement_fields params) k (hseg (k, d) hf)
    refine ⟨pre, post, ?_⟩
    have hrh : runHandler "role_refinement" params =
        render (segsOfAux (ROLE_REFINEMENT_TEMPLATE.data.length + 1) ROLE_REFINEMENT_TEMPLATE.data)
          (mkArgs handle_role_refinement_fields params) := rfl
    rw [hrh, hp, lookup_mkArgs handle_role_refinement_fields params k d hf hnd]
  · injection h with h1 h2
    subst h1; subst h2
    have hseg : ∀ p ∈ handle_inclusive_jd_fields,
        Tpl.fld p.1 ∈ segsOfAux (INCLUSIVE_JD_TEMPLATE.data.length + 1) INCLUSIVE_JD_TEMPLATE.data := by decide
    have hnd : (handle_inclusive_jd_fields.map Prod.fst).Nodup := by decide
    obtain ⟨pre, post, hp⟩ :=
      render_contains_field _ (mkArgs handle_inclusive_jd_fields params) k (hseg (k, d) hf)
    refine ⟨pre, post, ?_⟩
    have hrh : runHandler "inclusive_jd" params =
        render (segsOfAux (INCLUSIVE_JD_TEMPLATE.data.length + 1) INCLUSIVE_JD_TEMPLATE.data)
          (mkArgs handle_inclusive_jd_fields params) := rfl
    rw [hrh, hp, lookup_mkArgs handle_inclusive_jd_fields params k d hf hnd]
  · injection h with h1 h2
    subst h1; subst h2
    have hseg : ∀ p ∈ handle_outreach_message_fields,
        Tpl.fld p.1 ∈ segsOfAux (OUTREACH_MESSAGE_TEMPLATE.data.length + 1) OUTREACH_MESSAGE_TEMPLATE.data := by decide
    have hnd : (handle_outreach_message_fields.map Prod.fst).Nodup := by decide
    obtain ⟨pre, post, hp⟩ :=
      render_contains_field _ (mkArgs handle_outreach_message_fields params) k (hseg (k, d) hf)
    refine ⟨pre, post, ?_⟩
    have hrh : runHandler "outreach_message" params =
        render (segsOfAux (OUTREACH_MESSAGE_TEMPLATE.data.length + 1) OUTREACH_MESSAGE_TEMPLATE.data)
          (mkArgs handle_outreach_message_fields params) := rfl
    rw [hrh, hp, lookup_mkArgs handle_outreach_message_fields params k d hf hnd]
  · injection h with h1 h2
    subst h1; subst h2
    have hseg : ∀ p ∈ handle_sourcing_plan_fields,
        Tpl.fld p.1 ∈ segsOfAux (SOURCING_PLAN_TEMPLATE.data.length + 1) SOURCING_PLAN_TEMPLATE.data := by decide
    have hnd : (handle_sourcing_plan_fields.map Prod.fst).Nodup := by decide
    obtain ⟨pre, post, hp⟩ :=
      render_contains_field _ (mkArgs handle_sourcing_plan_fields params) k (hseg (k, d) hf)
    refine ⟨pre, post, ?_⟩
    have hrh : runHandler "sourcing_plan" params =
        render (segsOfAux (SOURCING_PLAN_TEMPLATE.data.length + 1) SOURCING_PLAN_TEMPLATE.data)
          (mkArgs handle_sourcing_plan_fields params) := rfl
    rw [hrh, hp, lookup_mkArgs handle_sourcing_plan_fields params k d hf hnd]
  · injection h with h1 h2
    subst h1; subst h2
    have hseg : ∀ p ∈ handle_interview_guide_fields,
        Tpl.fld p.1 ∈ segsOfAux (INTERVIEW_GUIDE_TEMPLATE.data.length + 1) INTERVIEW_GUIDE_TEMPLATE.data := by decide
    have hnd : (handle_interview_guide_fields.map Prod.fst).Nodup := by decide
    obtain ⟨pre, post, hp⟩ :=
      render_contains_field _ (mkArgs handle_interview_guide_fields params) k (hseg (k, d) hf)
    refine ⟨pre, post, ?_⟩
    have hrh : runHandler "interview_guide" params =
        render (segsOfAux (INTERVIEW_GUIDE_TEMPLATE.data.length + 1) INTERVIEW_GUIDE_TEMPLATE.data)
          (mkArgs handle_interview_guide_fields params) := rfl
    rw [hrh, hp, lookup_mkArgs handle_interview_guide_fields params k d hf hnd]
  · injection h with h1 h2
    subst h1; subst h2
    have hseg : ∀ p ∈ handle_task_triage_fields,
        Tpl.fld p.1 ∈ segsOfAux (TASK_TRIAGE_TEMPLATE.data.length + 1) TASK_TRIAGE_TEMPLATE.data := by decide
    have hnd : (handle_task_triage_fields.map Prod.fst).Nodup := by decide
    obtain ⟨pre, post, hp⟩ :=
      render_contains_field _ (mkArgs handle_task_triage_fields params) k (hseg (k, d) hf)
    refine ⟨pre, post, ?_⟩
    have hrh : runHandler "task_triage" params =
        render (segsOfAux (TASK_TRIAGE_TEMPLATE.data.length + 1) TASK_TRIAGE_TEMPLATE.data)
          (mkArgs handle_task_triage_fields params) := rfl
    rw [hrh, hp, lookup_mkArgs handle_task_triage_fields params k d hf hnd]
  · injection h with h1 h2
    subst h1; subst h2
    have hseg : ∀ p ∈ handle_offer_handover_fields,
        Tpl.fld p.1 ∈ segsOfAux (OFFER_HANDOVER_TEMPLATE.data.length + 1) OFFER_HANDOVER_TEMPLATE.data := by decide
    have hnd : (handle_offer_handover_fields.map Prod.fst).Nodup := by decide
    obtain ⟨pre, post, hp⟩ :=
      render_contains_field _ (mkArgs handle_offer_handover_fields params) k (hseg (k, d) hf)
    refine ⟨pre, post, ?_⟩
    have hrh : runHandler "offer_handover" params =
        render (segsOfAux (OFFER_HANDOVER_TEMPLATE.data.length + 1) OFFER_HANDOVER_TEMPLATE.data)
          (mkArgs handle_offer_handover_fields params) := rfl
    rw [hrh, hp, lookup_mkArgs handle_offer_handover_fields params k d hf hnd]
  · injection h with h1 h2
    subst h1; subst h2
    have hseg : ∀ p ∈ handle_candidate_summary_fields,
        Tpl.fld p.1 ∈ segsOfAux (CANDIDATE_SUMMARY_TEMPLATE.data.length + 1) CANDIDATE_SUMMARY_TEMPLATE.data := by decide
    have hnd : (handle_candidate_summary_fields.map Prod.fst).Nodup := by decide
    obtain ⟨pre, post, hp⟩ :=
      render_contains_field _ (mkArgs handle_candidate_summary_fields params) k (hseg (k, d) hf)
    refine ⟨pre, post, ?_⟩
    have hrh : runHandler "candidate_summary" params =
        render (segsOfAux (CANDIDATE_SUMMARY_TEMPLATE.data.length + 1) CANDIDATE_SUMMARY_TEMPLATE.data)
          (mkArgs handle_candidate_summary_fields params) := rfl
    rw [hrh, hp, lookup_mkArgs handle_candidate_summary_fields params k d hf hnd]
  · injection h with h1 h2
    subst h1; subst h2
    have hseg : ∀ p ∈ handle_market_insights_fields,
        Tpl.fld p.1 ∈ segsOfAux (MARKET_INSIGHTS_TEMPLATE.data.length + 1) MARKET_INSIGHTS_TEMPLATE.data := by decide
    have hnd : (handle_market_insights_fields.map Prod.fst).Nodup := by decide
    obtain ⟨pre, post, hp⟩ :=
      render_contains_field _ (mkArgs handle_market_insights_fields params) k (hseg (k, d) hf)
    refine ⟨pre, post, ?_⟩
    have hrh : runHandler "market_insights" params =
        render (segsOfAux (MARKET_INSIGHTS_TEMPLATE.data.length + 1) MARKET_INSIGHTS_TEMPLATE.data)
          (mkArgs handle_market_insights_fields params) := rfl
    rw [hrh, hp, lookup_mkArgs handle_market_insights_fields params k d hf hnd]

/-- Witness for C4: the inclusive_jd handler with no parameters emits the
    role_title default. -/
theorem C4_placeholder_substitution_witness :
    ∃ pre post, runHandler "inclusive_jd" [] =
      pre ++ dictGetD [] "role_title" "[role title]" ++ post :=
  C4_placeholder_substitution "inclusive_jd" handle_inclusive_jd_fields
    "role_title" "[role title]" [] (by decide) (by decide)

/-! ## Claim C1 -/

/-- C1 counterexample: for the input `{}` (no "role" field), an API key
    present and the model replying `{"status": "ok"}`, the adapter does
    invoke the external call (second component `true`) and returns the
    model's object with status "ok" — not the needs_clarification result
    produced without a call that the claim requires.  The missing-role
    rule exists only in the prompt text, not in the adapter code. -/
theorem C1_counterexample :
    (generate_inclusive_jd (JValue.obj []) (some "key") none
        (Except.ok "\x7b\"status\": \"ok\"\x7d")).2 = true
    ∧ statusOf (generate_inclusive_jd (JValue.obj []) (some "key") none
        (Except.ok "\x7b\"status\": \"ok\"\x7d")).1 = some "ok" :=
  ⟨rfl, rfl⟩

/-- C1 amended: `generate_inclusive_jd` performs no role check in code:
    for every input object — in particular every one lacking "role" —
    whenever a truthy API key is supplied, the external generation call is
    invoked and the result is determined by the model reply alone
    (`jdReplyResult`); the needs_clarification policy for a missing role
    is delegated to the model through the prompt. -/
theorem C1_no_role_check (input : JValue) (apiKey envKey : Option String)
    (reply : Except String String) (h : pyTruthy apiKey = true) :
    (generate_inclusive_jd input apiKey envKey reply).2 = true
    ∧ (generate_inclusive_jd input apiKey envKey reply).1 = jdReplyResult reply := by
  have hkey : pyTruthy (if pyTruthy apiKey then apiKey else envKey) = true := by
    rw [if_pos h]; exact h
  unfold generate_inclusive_jd jdReplyResult
  rw [if_pos hkey]
  cases reply with
  | error e => exact ⟨rfl, rfl⟩
  | ok t =>
    cases hjl : json_loads (jdStripFence (pyStrip t)) with
    | some v => simp [hjl]
    | none => simp [hjl]

/-- Witness for C1 at the empty input object. -/
theorem C1_no_role_check_witness :
    (generate_inclusive_jd (JValue.obj []) (some "key") none (Except.ok "\x7b\x7d")).2 = true
    ∧ (generate_inclusive_jd (JValue.obj []) (some "key") none (Except.ok "\x7b\x7d")).1
        = jdReplyResult (Except.ok "\x7b\x7d") :=
  C1_no_role_check (JValue.obj []) (some "key") none (Except.ok "\x7b\x7d") rfl

/-! ## Claim C2 -/

/-- C2 counterexample: the JD adapter returns the parsed model reply
    `{"foo": 1}` as a non-error result (it has no "status" field at all)
    even though it fails the adapter's fixed output schema — no
    validation happens on the JD path, contrary to the claim's "for both
    adapters". -/
theorem C2_counterexample :
    (generate_inclusive_jd (JValue.obj []) (some "key") none
        (Except.ok "\x7b\"foo\": 1\x7d")).1 = JValue.obj [("foo", JValue.num 1)]
    ∧ validateJD (JValue.obj [("foo", JValue.num 1)]) = false
    ∧ statusOf (JValue.obj [("foo", JValue.num 1)]) = none :=
  ⟨rfl, rfl, rfl⟩

/-- C2 amended: only the role-refinement adapter validates its result:
    every value it returns successfully satisfies the
    `RoleRefinementOutput` schema, while `generate_inclusive_jd` returns
    whatever JSON value the reply parses to, with no schema check. -/
theorem C2_validation :
    (∀ (raw : String) (v : JValue),
        run_role_refinement raw = Except.ok v → validateRRO v = true)
    ∧ (∀ (input : JValue) (apiKey envKey : Option String) (t : String) (v : JValue),
        pyTruthy apiKey = true →
        json_loads (jdStripFence (pyStrip t)) = some v →
        (generate_inclusive_jd input apiKey envKey (Except.ok t)).1 = v) := by
  constructor
  · intro raw v h
    unfold run_role_refinement at h
    cases hp : rrParse (pyStrip raw) with
    | error e => simp [hp] at h
    | ok data =>
      simp only [hp] at h
      cases ht : rrTransform data with
      | error e => simp [ht] at h
      | ok data1 =>
        simp only [ht] at h
        by_cases hv : validateRRO data1 = true
        · rw [if_pos hv] at h
          injection h with h1
          rw [← h1]
          exact hv
        · rw [if_neg hv] at h
          simp at h
  · intro input apiKey envKey t v hk hjl
    have hkey : pyTruthy (if pyTruthy apiKey then apiKey else envKey) = true := by
      rw [if_pos hk]; exact hk
    unfold generate_inclusive_jd
    rw [if_pos hkey]
    simp [hjl]

/-- Witness for C2: a fully valid reply passes validation and is returned
    by the role-refinement adapter, and the JD adapter passes a parsed
    reply through unchanged. -/
theorem C2_validation_witness :
    run_role_refinement rroGoodReply = Except.ok rroGoodValue
    ∧ validateRRO rroGoodValue = true
    ∧ (generate_inclusive_jd (JValue.obj []) (some "key") none
        (Except.ok "\x7b\"a\": \"b\"\x7d")).1 = JValue.obj [("a", JValue.str "b")] :=
  ⟨rfl, C2_validation.1 rroGoodReply rroGoodValue rfl,
   C2_validation.2 (JValue.obj []) (some "key") none "\x7b\"a\": \"b\"\x7d"
     (JValue.obj [("a", JValue.str "b")]) rfl rfl⟩

/-! ## Claim C3 -/

/-- C3 counterexample: `run_role_refinement` raises `ValueError` to its
    caller when the model reply contains no parseable JSON, contrary to
    the claim that neither adapter ever raises. -/
theorem C3_counterexample :
    run_role_refinement "no json here"
      = Except.error (PyExc.valueError "AI output did not contain valid JSON.") :=
  rfl

/-- C3 amended: `generate_inclusive_jd` indeed never raises — a missing
    credential yields the tagged configuration-error object without
    calling the model, and an unparseable reply yields an error-status
    object — but `run_role_refinement` raises `ValueError` when the reply
    yields no JSON (and it checks no credential at all). -/
theorem C3_error_paths :
    (∀ (input : JValue) (reply : Except String String),
        generate_inclusive_jd input none none reply
          = (JValue.obj [("status", JValue.str "error"),
              ("notes", JValue.str "Missing Google API Key. Set GOOGLE_API_KEY in .env.")],
             false))
    ∧ (∀ (input : JValue) (apiKey envKey : Option String) (t : String),
        pyTruthy apiKey = true →
        json_loads (jdStripFence (pyStrip t)) = none →
        statusOf (generate_inclusive_jd input apiKey envKey (Except.ok t)).1
          = some "error")
    ∧ (∀ raw : String, json_loads (pyStrip raw) = none →
        reFindBraceRegion (pyStrip raw).data = none →
        run_role_refinement raw
          = Except.error (PyExc.valueError "AI output did not contain valid JSON.")) := by
  refine ⟨fun input reply => rfl, ?_, ?_⟩
  · intro input apiKey envKey t hk hjl
    have hkey : pyTruthy (if pyTruthy apiKey then apiKey else envKey) = true := by
      rw [if_pos hk]; exact hk
    unfold generate_inclusive_jd
    rw [if_pos hkey]
    simp [hjl]
    rfl
  · intro raw h1 h2
    simp only [run_role_refinement, rrParse, h1, h2]

/-- Witness for C3: the three error paths at concrete inputs. -/
theorem C3_error_paths_witness :
    generate_inclusive_jd (JValue.obj []) none none (Except.ok "x")
      = (JValue.obj [("status", JValue.str "error"),
          ("notes", JValue.str "Missing Google API Key. Set GOOGLE_API_KEY in .env.")],
         false)
    ∧ statusOf (generate_inclusive_jd (JValue.obj []) (some "key") none
        (Except.ok "oops")).1 = some "error"
    ∧ run_role_refinement "zzz"
        = Except.error (PyExc.valueError "AI output did not contain valid JSON.") :=
  ⟨C3_error_paths.1 (JValue.obj []) (Except.ok "x"),
   C3_error_paths.2.1 (JValue.obj []) (some "key") none "oops" rfl rfl,
   C3_error_paths.2.2 "zzz" rfl rfl⟩

/-! ## Claim C6 -/

/-- C6 counterexample: the JD adapter has no brace-substring fallback at
    all: on the reply `note {"status": "ok"} end` it reports an error,
    although the claim's fallback — the substring from the first '{' to
    the last '}' — parses fine (second conjunct). -/
theorem C6_counterexample :
    statusOf (generate_inclusive_jd (JValue.obj []) (some "key") none
        (Except.ok "note \x7b\"status\": \"ok\"\x7d end")).1 = some "error"
    ∧ json_loads "\x7b\"status\": \"ok\"\x7d" = some (JValue.obj [("status", JValue.str "ok")]) :=
  ⟨rfl, rfl⟩

/-- C6 amended: the two adapters' parse pipelines differ from the claim
    and from each other.  The JD adapter strips an enclosing code fence
    (dropping a "json" tag), attempts a direct parse, and on failure
    reports a generation error with no substring fallback (conjuncts 1-2).
    The role-refinement adapter does no fence-stripping; it attempts a
    direct parse of the stripped reply and falls back to the first
    brace-balanced region (one nesting level) found by its regex — not
    the first-'{'-to-last-'}' substring, see conjunct 5 — raising
    `ValueError` only when no region exists (conjuncts 3-4). -/
theorem C6_parse_pipeline :
    (∀ (input : JValue) (apiKey envKey : Option String) (t : String) (v : JValue),
        pyTruthy apiKey = true →
        json_loads (jdStripFence (pyStrip t)) = some v →
        generate_inclusive_jd input apiKey envKey (Except.ok t) = (v, true))
    ∧ (∀ (input : JValue) (apiKey envKey : Option String) (t : String),
        pyTruthy apiKey = true →
        json_loads (jdStripFence (pyStrip t)) = none →
        (generate_inclusive_jd input apiKey envKey (Except.ok t)).1
          = errObjJD ("Generation failed: " ++ jsonDecodeNote))
    ∧ (∀ (raw : String) (region : List Char) (v : JValue),
        json_loads raw = none → reFindBraceRegion raw.data = some region →
        json_loads ⟨region⟩ = some v → rrParse raw = Except.ok v)
    ∧ (∀ raw : String, json_loads raw = none → reFindBraceRegion raw.data = none →
        rrParse raw = Except.error (PyExc.valueError "AI output did not contain valid JSON."))
    ∧ reFindBraceRegion "x \x7b\"a\": 1\x7d y \x7b\"b\": 2\x7d".data = some ("\x7b\"a\": 1\x7d".data) := by
  refine ⟨?_, ?_, ?_, ?_, rfl⟩
  · intro input apiKey envKey t v hk hjl
    have hkey : pyTruthy (if pyTruthy apiKey then apiKey else envKey) = true := by
      rw [if_pos hk]; exact hk
    unfold generate_inclusive_jd
    rw [if_pos hkey]
    simp [hjl]
  · intro input apiKey envKey t hk hjl
    have hkey : pyTruthy (if pyTruthy apiKey then apiKey else envKey) = true := by
      rw [if_pos hk]; exact hk
    unfold generate_inclusive_jd
    rw [if_pos hkey]
    simp [hjl]
  · intro raw region v h1 h2 h3
    simp only [rrParse, h1, h2, h3]
  · intro raw h1 h2
    simp only [rrParse, h1, h2]

/-- Witness for C6: a fenced reply parsed directly after fence-stripping;
    a non-JSON reply reported as an error by the JD adapter; the regex
    fallback succeeding on the first balanced region; and the raising
    path when the reply holds no braces at all. -/
theorem C6_parse_pipeline_witness :
    generate_inclusive_jd (JValue.obj []) (some "key") none
        (Except.ok "```json\n\x7b\"a\": 1\x7d\n```")
      = (JValue.obj [("a", JValue.num 1)], true)
    ∧ (generate_inclusive_jd (JValue.obj []) (some "key") none
        (Except.ok "not json")).1 = errObjJD ("Generation failed: " ++ jsonDecodeNote)
    ∧ rrParse "x \x7b\"a\": 1\x7d y" = Except.ok (JValue.obj [("a", JValue.num 1)])
    ∧ rrParse "none at all"
        = Except.error (PyExc.valueError "AI output did not contain valid JSON.") :=
  ⟨C6_parse_pipeline.1 (JValue.obj []) (some "key") none "```json\n\x7b\"a\": 1\x7d\n```"
     (JValue.obj [("a", JValue.num 1)]) rfl rfl,
   C6_parse_pipeline.2.1 (JValue.obj []) (some "key") none "not json" rfl rfl,
   C6_parse_pipeline.2.2.1 "x \x7b\"a\": 1\x7d y" ("\x7b\"a\": 1\x7d".data)
     (JValue.obj [("a", JValue.num 1)]) rfl rfl rfl,
   C6_parse_pipeline.2.2.2.1 "none at all" rfl rfl⟩

end Scout
